import Mathlib

/-!
Shallow embedding of `src/index.js` of sebimoe/christmas-tree-simulator.

Modelling conventions:
* JavaScript numbers are modelled as exact rationals `ℚ`; the `NaN` value
  (as produced by `parseFloat`/`parseInt` on non-numeric text) is modelled
  by `none` in an `Option` layer.
* Strings are processed through their character lists, and the single-character
  `String.prototype.split` used by the source is modelled by `splitOnChar`.
* Fallible code (a `throw` in the source) is modelled with `Except String`.
-/

/-- A JavaScript number that may be `NaN`: `none` models `NaN`. -/
abbrev JsNum := Option ℚ

/-- Truncation toward zero on rationals, matching how JavaScript's `%`
rounds the quotient. -/
def ratTrunc (q : ℚ) : ℤ := if 0 ≤ q then ⌊q⌋ else ⌈q⌉

/-- JavaScript `a % b` on finite numbers: the remainder of truncated division,
so the result has the sign of the dividend `a`. -/
def jsRem (a b : ℚ) : ℚ := a - b * ratTrunc (a / b)

/-- JavaScript `str.split(sep)` for a one-character separator `sep`, on the
character list of the string.  Always returns a non-empty list of pieces. -/
def splitOnChar (sep : Char) : List Char → List (List Char)
  | [] => [[]]
  | c :: rest =>
    match splitOnChar sep rest with
    | [] => [[]]
    | h :: t => if c = sep then [] :: h :: t else (c :: h) :: t

/-- Number of commas in a line, modelling `line.replace(/[^,]/g, '').length`
from `CsvCoordinateDecoder.decode`. -/
def commaCount (line : List Char) : ℕ := (line.filter (fun c => c = ',')).length

/-- JavaScript `str.trim()`: strip whitespace from both ends. -/
def jsTrim (cs : List Char) : List Char :=
  ((cs.dropWhile Char.isWhitespace).reverse.dropWhile Char.isWhitespace).reverse

/-- Value of a list of decimal digit characters. -/
def digitsToNat (l : List Char) : ℕ := l.foldl (fun n c => 10 * n + (c.toNat - 48)) 0

/-- Digit-level part of JavaScript `parseFloat`: strip leading whitespace, read
an optional sign, integer digits, and optional fraction digits (trailing
non-numeric text is ignored, exponents are not modelled).  Returns `none` when
no digits are present (the `NaN` case), otherwise the sign, the value of the
integer digits, the value of the fraction digits, and how many fraction digits
there are. -/
def jsParseFloatParts (cs : List Char) : Option (Bool × ℕ × ℕ × ℕ) :=
  let cs := cs.dropWhile Char.isWhitespace
  let neg : Bool := match cs with
    | '-' :: _ => true
    | _ => false
  let cs := match cs with
    | '-' :: rest => rest
    | '+' :: rest => rest
    | _ => cs
  let intDigits := cs.takeWhile Char.isDigit
  let afterInt := cs.dropWhile Char.isDigit
  let fracDigits := match afterInt with
    | '.' :: rest => rest.takeWhile Char.isDigit
    | _ => []
  if intDigits = [] ∧ fracDigits = [] then none
  else some (neg, digitsToNat intDigits, digitsToNat fracDigits, fracDigits.length)

/-- JavaScript `parseFloat` on the modelled decimal shapes: the numeric value
of the parsed sign, integer digits and fraction digits; `none` models `NaN`. -/
def jsParseFloat (cs : List Char) : JsNum :=
  match jsParseFloatParts cs with
  | none => none
  | some (neg, intVal, fracVal, fracLen) =>
    some ((if neg then -1 else 1) * ((intVal : ℚ) + (fracVal : ℚ) / (10 : ℚ) ^ fracLen))

/-- JavaScript `parseInt(s, 10)`: optional sign then decimal digits, trailing
non-numeric text ignored; `none` (`NaN`) when no digits are present. -/
def jsParseInt (cs : List Char) : Option ℤ :=
  let cs := cs.dropWhile Char.isWhitespace
  let sign : ℤ := match cs with
    | '-' :: _ => -1
    | _ => 1
  let cs := match cs with
    | '-' :: rest => rest
    | '+' :: rest => rest
    | _ => cs
  let ds := cs.takeWhile Char.isDigit
  if ds = [] then none else some (sign * (digitsToNat ds : ℤ))

/-! ### Whole-document JSON coordinate decoder -/

/-- JSON values, restricted to the fragment the coordinate files use
(numbers, booleans, null, nested arrays).  Strings and objects do not occur
in the inputs the claims are about and are omitted. -/
inductive Json where
  | num (q : ℚ)
  | bool (b : Bool)
  | null
  | arr (elems : List Json)

/-- `typeof x === "number"` on a JSON value. -/
def Json.isNumber : Json → Bool
  | .num _ => true
  | _ => false

/-- The source's per-row check `row.length === 3 && row.every(x => typeof x
=== "number")`; on a non-array row `row.length` is `undefined`, so the
comparison with 3 is false. -/
def jsonRowValid : Json → Bool
  | .arr elems => elems.length == 3 && elems.all Json.isNumber
  | _ => false

/-- `JsonArrayCoordinateDecoder.decode`, applied to the already-parsed JSON
value of the input (the claims quantify over input strings that `JSON.parse`
turns into an array, so the parser itself is not modelled).  The condition is
the source's literal `!(geometry.length >= 1) || geometry.every(row => ...)`. -/
def JsonArrayCoordinateDecoder.decode (geometry : List Json) : Except String (List Json) :=
  if ¬ geometry.length ≥ 1 ∨ geometry.all jsonRowValid then
    .error "Provided JSON must represent an array containing 3-element X,Y,Z arrays."
  else
    .ok geometry

/-! ### CSV coordinate decoder -/

/-- Configuration of `CsvCoordinateDecoder`, with the source's defaults.  The
source constructor throws unless `xyzColumns` has exactly 3 entries, so
`decode` only runs with a 3-element list; `getD` below then coincides with the
source's direct indexing `this.xyzColumns[0..2]`. -/
structure CsvCoordinateDecoder where
  xyzColumns : List ℕ := [0, 1, 2]
  skipRowCount : ℕ := 0
  validationMaxColumns : ℕ := 10
deriving DecidableEq

/-- `CsvCoordinateDecoder.decode`: drop the skipped rows, reject the whole
file when any remaining raw line has at least `validationMaxColumns` commas,
then keep the rows long enough to reach the highest selected column and map
each to the three selected cells parsed as floats. -/
def CsvCoordinateDecoder.decode (d : CsvCoordinateDecoder) (inputString : String) :
    Except String (List (List JsNum)) :=
  let lines := (splitOnChar '\n' inputString.data).drop d.skipRowCount
  let fieldX := d.xyzColumns.getD 0 0
  let fieldY := d.xyzColumns.getD 1 0
  let fieldZ := d.xyzColumns.getD 2 0
  let highestFieldIndex := max fieldX (max fieldY fieldZ)
  if lines.any (fun line => d.validationMaxColumns ≤ commaCount line) then
    .error "Selected coordinate CSV file has more columns than allowed! Rejecting."
  else
    .ok ((((lines.map (fun ln => splitOnChar ',' (jsTrim ln))).filter
        (fun fields => highestFieldIndex < fields.length)).map
      (fun fields =>
        [fields.getD fieldX [], fields.getD fieldY [], fields.getD fieldZ []].map jsParseFloat)))

/-! ### Coordinate mapping -/

/-- A 3-element coordinate as produced by the coordinate decoders. -/
abbrev Coord := List JsNum

/-- `CoordinateMapping`: thin wrapper around one decoded coordinate list. -/
structure CoordinateMapping where
  mapping : List Coord := []
deriving DecidableEq

/-- `CoordinateMapping.idxToCoord(idx, defaultValue = null)`: the coordinate at
`idx` when in range, and the caller-supplied default otherwise (`none` models
the `null` default). -/
def CoordinateMapping.idxToCoord (m : CoordinateMapping) (idx : ℤ)
    (defaultValue : Option Coord := none) : Option Coord :=
  if idx < 0 ∨ (m.mapping.length : ℤ) ≤ idx then defaultValue
  else some (m.mapping.getD idx.toNat [])

/-! ### CSV animation decoder -/

/-- Index a component name resolves to in the decoder's component map.  The
source builds a `Map` by `components.forEach((c, idx) => set(c, idx))`, so a
duplicated name resolves to its last index. -/
def componentIdx (components : List String) (c : List Char) : Option ℕ :=
  ((components.enum.filter (fun p => p.2.data = c)).getLast?).map Prod.fst

/-- One mapped heading column: the component name and the pixel index parsed
from a `component_pixelIndex` label. -/
structure ColumnTarget where
  component : List Char
  pixel : ℤ

/-- Result of `decodeHeadingRow`: the total column count and the per-column
optional mapping target. -/
structure HeadingInfo where
  totalColumnCount : ℕ
  columnMapping : List (Option ColumnTarget)

/-- `CsvAnimationDecoder.decodeHeadingRow`: lower-case the heading line, split
it on commas, and map each `component_pixelIndex` label whose component is a
known component name; all other labels stay unmapped.  A label whose pixel
index has no digits (`parseInt` gives `NaN`) is modelled as unmapped: the
source's row loop then writes to `pixels[NaN]`, a plain property that never
appears in the resulting frame array. -/
def decodeHeadingRow (components : List String) (line : List Char) : HeadingInfo :=
  let fields := splitOnChar ',' (line.map Char.toLower)
  { totalColumnCount := fields.length
    columnMapping := fields.map (fun field =>
      match splitOnChar '_' field with
      | [component, pixelIndexStr] =>
        if (componentIdx components component).isSome then
          match jsParseInt pixelIndexStr with
          | some pixelIndex => some ⟨component, pixelIndex⟩
          | none => none
        else none
      | _ => none) }

/-- JavaScript `arr[i] = v` on a possibly shorter array: pad with holes up to
`i`, then set slot `i`; `none` entries model the holes. -/
def sparseSet (l : List (Option α)) (i : ℕ) (v : α) : List (Option α) :=
  (l ++ List.replicate (i + 1 - l.length) none).set i (some v)

/-- A pixel under construction: channel slots, `none` for a hole never
written, `some v` for a written `parseFloat` result (where `v : JsNum` is the
number-or-NaN). -/
abbrev JsPixel := List (Option JsNum)

/-- A frame: pixel slots addressed by pixel index, `none` for holes. -/
abbrev JsFrame := List (Option JsPixel)

/-- The per-row loop of `CsvAnimationDecoder.decode`: for each heading column
that carries a mapping, parse the cell as a float and write it into the pixel
array at (pixel index, channel index of the component).  A negative pixel
index is, like the `NaN` case, a plain property on the JavaScript array that
never appears in the output, so it is modelled as a skipped write; the
component's channel index is guaranteed present by the heading check. -/
def processAnimationRow (components : List String) (hi : HeadingInfo)
    (fields : List (List Char)) : JsFrame :=
  (List.range hi.totalColumnCount).foldl (fun pixels columnIndex =>
    match hi.columnMapping.getD columnIndex none with
    | none => pixels
    | some target =>
      if target.pixel < 0 then pixels
      else
        let pixelObj := (pixels.getD target.pixel.toNat none).getD []
        let channel := (componentIdx components target.component).getD 0
        sparseSet pixels target.pixel.toNat
          (sparseSet pixelObj channel (jsParseFloat (fields.getD columnIndex [])))) []

/-- `CsvAnimationDecoder.decode` under the default mapper configuration (no
hex output and no custom pixel or frame mappers, so both mappers are the
identity — the configuration the claims exercise; JavaScript's
`Array.prototype.map` skips holes, so the identity pixel mapper returns the
sparse frame unchanged): drop the skipped rows, consume exactly one heading
row, keep the rows with at least as many fields as the heading, and assemble
each remaining row into a sparse frame. -/
def CsvAnimationDecoder.decode (skipRowCount : ℕ) (components : List String)
    (inputString : String) : List JsFrame :=
  let lines := (splitOnChar '\n' inputString.data).drop skipRowCount
  let hi := decodeHeadingRow components (lines.headD [])
  let rows := lines.drop 1
  ((rows.map (fun ln => splitOnChar ',' ln)).filter
    (fun fields => hi.totalColumnCount ≤ fields.length)).map
    (processAnimationRow components hi)

/-! ### Theorems about the coordinate decoders -/

/-- C1 (evidence of the code defect): `JsonArrayCoordinateDecoder.decode`
rejects the non-empty, fully valid array `[[1,2,3]]`, and accepts the
malformed non-empty array `[[1,2]]` unchanged.  The source's condition
`!(geometry.length >= 1) || geometry.every(row => ...)` throws exactly when
the array is empty or every row is valid, the inversion the spec flags as a
likely defect; the claim states the evidently intended behaviour. -/
theorem jsonArrayDecode_inverted_validation :
    JsonArrayCoordinateDecoder.decode [Json.arr [Json.num 1, Json.num 2, Json.num 3]] =
      .error "Provided JSON must represent an array containing 3-element X,Y,Z arrays."
    ∧ JsonArrayCoordinateDecoder.decode [Json.arr [Json.num 1, Json.num 2]] =
      .ok [Json.arr [Json.num 1, Json.num 2]] :=
  ⟨rfl, rfl⟩

/-- C4 counterexample: a row with exactly `validationMaxColumns` (default 10)
comma-separated fields — nine commas — is not rejected by
`CsvCoordinateDecoder.decode`; the file decodes successfully, because the
source counts commas, not fields, against the ceiling. -/
theorem csvDecode_ten_fields_accepted :
    (splitOnChar ',' "0,1,2,3,4,5,6,7,8,9".data).length = 10
    ∧ CsvCoordinateDecoder.decode {} "0,1,2,3,4,5,6,7,8,9" =
        .ok [[some 0, some 1, some 2]] := by
  refine ⟨by decide, ?_⟩
  rw [show CsvCoordinateDecoder.decode {} "0,1,2,3,4,5,6,7,8,9" =
    .ok [[jsParseFloat "0".data, jsParseFloat "1".data, jsParseFloat "2".data]] from rfl]
  simp only [jsParseFloat,
    show jsParseFloatParts "0".data = some (false, 0, 0, 0) from by decide,
    show jsParseFloatParts "1".data = some (false, 1, 0, 0) from by decide,
    show jsParseFloatParts "2".data = some (false, 2, 0, 0) from by decide]
  norm_num

/-- C4 (amended): `CsvCoordinateDecoder.decode` raises the format error for
the whole file whenever some line after the skipped rows has at least
`validationMaxColumns` commas — that is, more than `validationMaxColumns`
comma-separated fields — regardless of whether that row would otherwise
parse. -/
theorem csvDecode_rejects_overwide_rows (d : CsvCoordinateDecoder) (input : String)
    (h : ∃ line ∈ (splitOnChar '\n' input.data).drop d.skipRowCount,
      d.validationMaxColumns ≤ commaCount line) :
    CsvCoordinateDecoder.decode d input =
      .error "Selected coordinate CSV file has more columns than allowed! Rejecting." := by
  simp only [CsvCoordinateDecoder.decode]
  rw [if_pos]
  exact List.any_eq_true.mpr (by simpa using h)

/-- Witness for `csvDecode_rejects_overwide_rows`: a single row of eleven
fields (ten commas) is rejected under the default configuration. -/
theorem csvDecode_rejects_overwide_rows_w :
    CsvCoordinateDecoder.decode {} "0,1,2,3,4,5,6,7,8,9,10" =
      .error "Selected coordinate CSV file has more columns than allowed! Rejecting." :=
  csvDecode_rejects_overwide_rows {} "0,1,2,3,4,5,6,7,8,9,10" (by decide)

/-- C9: with `skipRowCount = N > 0` the column-ceiling check only sees lines
after the first `N` skipped ones: whenever every remaining line stays below
the ceiling, decode succeeds, even if a skipped line is over-wide. -/
theorem csvDecode_skip_shields_ceiling (d : CsvCoordinateDecoder) (input : String)
    (hskip : 0 < d.skipRowCount)
    (h : ∀ line ∈ (splitOnChar '\n' input.data).drop d.skipRowCount,
      commaCount line < d.validationMaxColumns) :
    ∃ g, CsvCoordinateDecoder.decode d input = .ok g := by
  have hc : ¬ (((splitOnChar '\n' input.data).drop d.skipRowCount).any
      (fun line => decide (d.validationMaxColumns ≤ commaCount line)) = true) := by
    intro hcon
    obtain ⟨line, hm, hle⟩ := List.any_eq_true.mp hcon
    exact absurd (of_decide_eq_true hle) (not_le.mpr (h line hm))
  cases hdec : CsvCoordinateDecoder.decode d input with
  | ok g => exact ⟨g, rfl⟩
  | error e =>
    simp only [CsvCoordinateDecoder.decode] at hdec
    rw [if_neg hc] at hdec
    exact absurd hdec (by simp)

/-- Witness for `csvDecode_skip_shields_ceiling`: the only over-wide row (ten
commas) is the single skipped line, and decoding succeeds. -/
theorem csvDecode_skip_shields_ceiling_w :
    0 < (1 : ℕ)
    ∧ ∃ g, CsvCoordinateDecoder.decode { skipRowCount := 1 }
        "a,a,a,a,a,a,a,a,a,a,a\n1,2,3" = .ok g :=
  ⟨by decide,
    csvDecode_skip_shields_ceiling { skipRowCount := 1 } "a,a,a,a,a,a,a,a,a,a,a\n1,2,3"
      (by decide) (by decide)⟩

/-- C8: `idxToCoord` never fails: it returns the held coordinate when
`0 ≤ idx < length`, the caller-supplied default when the index is out of
range, and in particular returns the default at index 999 whenever the held
set has fewer than 1000 entries. -/
theorem idxToCoord_in_range_or_default (m : CoordinateMapping) (idx : ℤ) (d : Option Coord) :
    (0 ≤ idx → idx < (m.mapping.length : ℤ) →
      m.idxToCoord idx d = some (m.mapping.getD idx.toNat []))
    ∧ (idx < 0 ∨ (m.mapping.length : ℤ) ≤ idx → m.idxToCoord idx d = d)
    ∧ (m.mapping.length < 1000 → m.idxToCoord 999 d = d) := by
  refine ⟨fun h1 h2 => ?_, fun h => ?_, fun h => ?_⟩
  · rw [CoordinateMapping.idxToCoord, if_neg (by push_neg; exact ⟨h1, h2⟩)]
  · rw [CoordinateMapping.idxToCoord, if_pos h]
  · rw [CoordinateMapping.idxToCoord, if_pos (Or.inr (by omega))]

/-- Witness for `idxToCoord_in_range_or_default`: a one-entry mapping returns
the caller-supplied default at index 999. -/
theorem idxToCoord_in_range_or_default_w :
    CoordinateMapping.idxToCoord ⟨[[some 1, some 2, some 3]]⟩ 999
      (some [some 7, some 7, some 7]) = some [some 7, some 7, some 7] :=
  (idxToCoord_in_range_or_default ⟨[[some 1, some 2, some 3]]⟩ 999
    (some [some 7, some 7, some 7])).2.2 (by decide)

/-- C6: decoding the heading `r_0,g_0,b_0,r_1,g_1,b_1` followed by the single
data row `10,20,30,40,50,60` with the default configuration yields exactly one
frame equal to `[[10,20,30],[40,50,60]]`: pixel 0 carries (10,20,30) and pixel
1 carries (40,50,60), each channel placed at the index of its component in the
configured order r, g, b. -/
theorem csvAnimationDecode_two_pixel_frame :
    CsvAnimationDecoder.decode 0 ["r", "g", "b"]
      "r_0,g_0,b_0,r_1,g_1,b_1\n10,20,30,40,50,60" =
    [[some [some (some 10), some (some 20), some (some 30)],
      some [some (some 40), some (some 50), some (some 60)]]] := by
  rw [show CsvAnimationDecoder.decode 0 ["r", "g", "b"]
      "r_0,g_0,b_0,r_1,g_1,b_1\n10,20,30,40,50,60" =
    [[some [some (jsParseFloat "10".data), some (jsParseFloat "20".data),
        some (jsParseFloat "30".data)],
      some [some (jsParseFloat "40".data), some (jsParseFloat "50".data),
        some (jsParseFloat "60".data)]]] from rfl]
  simp only [jsParseFloat,
    show jsParseFloatParts "10".data = some (false, 10, 0, 0) from by decide,
    show jsParseFloatParts "20".data = some (false, 20, 0, 0) from by decide,
    show jsParseFloatParts "30".data = some (false, 30, 0, 0) from by decide,
    show jsParseFloatParts "40".data = some (false, 40, 0, 0) from by decide,
    show jsParseFloatParts "50".data = some (false, 50, 0, 0) from by decide,
    show jsParseFloatParts "60".data = some (false, 60, 0, 0) from by decide]
  norm_num

/-! ### Playback controller (`ChristmasTreeSimulator`) -/

/-- The state of `ChristmasTreeSimulator`, generic over the pixel value type
`P` carried by the loaded animation frames.  `_currentTime` is the backing
field behind the `currentTime` getter/setter pair; `startPlaying` and
`inititalPlaybackRate` (the source's spelling) hold the constructor options,
which no operation ever overwrites. -/
structure ChristmasTreeSimulator (P : Type) where
  _currentTime : ℚ
  playbackRate : ℚ
  inititalPlaybackRate : ℚ
  baseFrameRate : ℚ
  isPlaying : Bool
  startPlaying : Bool
  dirty : Bool
  dirtyGeometry : Bool
  animationFrames : List (List P)
  coordinateMapping : Option CoordinateMapping

/-- `frameCount` getter: `this.animationFrames.length`. -/
def ChristmasTreeSimulator.frameCount {P : Type} (s : ChristmasTreeSimulator P) : ℕ :=
  s.animationFrames.length

/-- `frameDuration` getter: `1 / this.baseFrameRate`. -/
def ChristmasTreeSimulator.frameDuration {P : Type} (s : ChristmasTreeSimulator P) : ℚ :=
  1 / s.baseFrameRate

/-- `duration` getter: `Math.max(1e-9, frameCount * frameDuration)`, floored
above zero so the time arithmetic never divides by zero. -/
def ChristmasTreeSimulator.duration {P : Type} (s : ChristmasTreeSimulator P) : ℚ :=
  max (1 / 1000000000) ((s.frameCount : ℚ) * s.frameDuration)

/-- The `currentTime` getter: `this._currentTime % this.duration`. -/
def ChristmasTreeSimulator.currentTime {P : Type} (s : ChristmasTreeSimulator P) : ℚ :=
  jsRem s._currentTime s.duration

/-- The `currentTime` setter: a negative value is normalized by
`val = val % duration; val += duration`, any other value is stored verbatim;
`dirty` is raised unconditionally. -/
def ChristmasTreeSimulator.setCurrentTime {P : Type} (s : ChristmasTreeSimulator P)
    (val : ℚ) : ChristmasTreeSimulator P :=
  let val := if val < 0 then jsRem val s.duration + s.duration else val
  { s with _currentTime := val, dirty := true }

/-- `currentFrameIdx` getter:
`Math.floor(this.currentTime / this.frameDuration) % this.frameCount`, with
JavaScript's truncating remainder (meaningful for the claims' precondition
`frameCount > 0`; at `frameCount = 0` the source yields `NaN`). -/
def ChristmasTreeSimulator.currentFrameIdx {P : Type} (s : ChristmasTreeSimulator P) : ℤ :=
  Int.tmod ⌊s.currentTime / s.frameDuration⌋ (s.frameCount : ℤ)

/-- JavaScript array indexing `arr[i]` with an integer index: `undefined`
(modelled `none`) when out of range. -/
def jsGetElem {α : Type} (l : List α) (i : ℤ) : Option α :=
  if 0 ≤ i then l.get? i.toNat else none

/-- `getCurrentFrameMapped`: `none` models the call throwing.  The frame is
read at `currentFrameIdx` (calling `.map` on the `undefined` of an
out-of-range read throws), and each pixel is paired with
`coordinateMapping.idxToCoord(idx)`; dereferencing a `null` mapping throws,
but only when the `.map` callback actually runs, i.e. when the frame has at
least one pixel. -/
def ChristmasTreeSimulator.getCurrentFrameMapped {P : Type}
    (s : ChristmasTreeSimulator P) : Option (List (Option Coord × P)) := do
  let frame ← jsGetElem s.animationFrames s.currentFrameIdx
  frame.enum.mapM (fun p => do
    let cm ← s.coordinateMapping
    pure (cm.idxToCoord (p.1 : ℤ) none, p.2))

/-- `resetPlayback({startPlaying?, playbackRate?, baseFrameRate?, startTime = 0})`
with `undefined` options modelled as `none`.  The source has `else` fallbacks
to the constructor options for `isPlaying` and `playbackRate`, but no `else`
branch at all for `baseFrameRate`: when omitted it keeps the previous live
value.  Finally `startTime` is written through the `currentTime` setter. -/
def ChristmasTreeSimulator.resetPlayback {P : Type} (s : ChristmasTreeSimulator P)
    (startPlaying : Option Bool) (playbackRate : Option ℚ)
    (baseFrameRate : Option ℚ) (startTime : ℚ := 0) : ChristmasTreeSimulator P :=
  let s := match startPlaying with
    | some v => { s with isPlaying := v }
    | none => { s with isPlaying := s.startPlaying }
  let s := match playbackRate with
    | some v => { s with playbackRate := v }
    | none => { s with playbackRate := s.inititalPlaybackRate }
  let s := match baseFrameRate with
    | some v => { s with baseFrameRate := v }
    | none => s
  s.setCurrentTime startTime

/-- `setData({animationFrames?, coordinateMapping?})`: each reference is
replaced only when passed (the source's loose `!= undefined` also treats a
passed `null` as omitted; `some` models passing a real object); replacing the
coordinate mapping raises `dirtyGeometry`; every call then writes 0 through
the `currentTime` setter. -/
def ChristmasTreeSimulator.setData {P : Type} (s : ChristmasTreeSimulator P)
    (animationFrames : Option (List (List P)))
    (coordinateMapping : Option CoordinateMapping) : ChristmasTreeSimulator P :=
  let s := match animationFrames with
    | some af => { s with animationFrames := af }
    | none => s
  let s := match coordinateMapping with
    | some cm => { s with coordinateMapping := some cm, dirtyGeometry := true }
    | none => s
  s.setCurrentTime 0

/-- `seekRelative(deltaTime)`: `this.currentTime += deltaTime`, which reads
the wrapped getter value and writes the sum through the setter. -/
def ChristmasTreeSimulator.seekRelative {P : Type} (s : ChristmasTreeSimulator P)
    (deltaTime : ℚ) : ChristmasTreeSimulator P :=
  s.setCurrentTime (s.currentTime + deltaTime)

/-- `processTimeAdvance(deltaTime)`: when playing, advance by the rate-scaled
delta through `seekRelative`; a no-op when paused. -/
def ChristmasTreeSimulator.processTimeAdvance {P : Type} (s : ChristmasTreeSimulator P)
    (deltaTime : ℚ) : ChristmasTreeSimulator P :=
  if s.isPlaying then s.seekRelative (deltaTime * s.playbackRate) else s

/-- The `ChristmasTreeSimulator` constructor with its option defaults.  The
source sets `_currentTime = null`, writes `startTime` through the
`currentTime` setter, then fills the remaining fields (for a negative
`startTime` the setter would read `duration` before `animationFrames` is
assigned and the source would throw, so the model covers the non-negative
`startTime` the claims use, with the empty `animationFrames` the constructor
ends up with). -/
def ChristmasTreeSimulator.construct (P : Type)
    (startPlaying : Bool := false) (startTime : ℚ := 0)
    (inititalPlaybackRate : ℚ := 1) (baseFrameRate : ℚ := 60) :
    ChristmasTreeSimulator P :=
  ChristmasTreeSimulator.setCurrentTime
    { _currentTime := 0
      playbackRate := inititalPlaybackRate
      inititalPlaybackRate := inititalPlaybackRate
      baseFrameRate := baseFrameRate
      isPlaying := startPlaying
      startPlaying := startPlaying
      dirty := true
      dirtyGeometry := true
      animationFrames := []
      coordinateMapping := none } startTime

/-- The time mutations claim C3 quantifies over: a `currentTime` write, a
`seekRelative`, or a `processTimeAdvance`, each with a finite numeric
argument. -/
inductive PlaybackOp where
  | writeTime (v : ℚ)
  | seek (d : ℚ)
  | advance (d : ℚ)

/-- Apply one time mutation to a simulator. -/
def applyPlaybackOp {P : Type} (s : ChristmasTreeSimulator P) :
    PlaybackOp → ChristmasTreeSimulator P
  | .writeTime v => s.setCurrentTime v
  | .seek d => s.seekRelative d
  | .advance d => s.processTimeAdvance d

/-- Apply a finite sequence of time mutations in order. -/
def runPlaybackOps {P : Type} (s : ChristmasTreeSimulator P)
    (ops : List PlaybackOp) : ChristmasTreeSimulator P :=
  ops.foldl applyPlaybackOp s

/-! ### Arithmetic facts about the JavaScript remainder -/

/-- For a non-negative dividend and positive divisor the JavaScript remainder
is the floor-based remainder `b * fract (a / b)`. -/
theorem jsRem_eq_mul_fract {a b : ℚ} (ha : 0 ≤ a) (hb : 0 < b) :
    jsRem a b = b * Int.fract (a / b) := by
  unfold jsRem ratTrunc
  rw [if_pos (div_nonneg ha hb.le), Int.fract, mul_sub, mul_div_cancel₀ _ hb.ne']

/-- The JavaScript remainder of a non-negative dividend by a positive divisor
lies in `[0, b)`. -/
theorem jsRem_nonneg_lt {a b : ℚ} (ha : 0 ≤ a) (hb : 0 < b) :
    0 ≤ jsRem a b ∧ jsRem a b < b := by
  rw [jsRem_eq_mul_fract ha hb]
  constructor
  · exact mul_nonneg hb.le (Int.fract_nonneg _)
  · calc b * Int.fract (a / b) < b * 1 :=
        (mul_lt_mul_left hb).mpr (Int.fract_lt_one _)
    _ = b := mul_one b

/-- The JavaScript remainder of a negative dividend by a positive divisor
lies in `(-b, 0]`. -/
theorem jsRem_neg_bounds {a b : ℚ} (ha : a < 0) (hb : 0 < b) :
    -b < jsRem a b ∧ jsRem a b ≤ 0 := by
  have hq : a / b < 0 := div_neg_of_neg_of_pos ha hb
  unfold jsRem ratTrunc
  rw [if_neg (not_le.mpr hq)]
  have h1 : a / b ≤ (⌈a / b⌉ : ℚ) := Int.le_ceil _
  have h2 : (⌈a / b⌉ : ℚ) < a / b + 1 := Int.ceil_lt_add_one _
  constructor
  · have := (mul_lt_mul_left hb).mpr h2
    have hab : b * (a / b) = a := mul_div_cancel₀ a hb.ne'
    nlinarith [hab]
  · have := (mul_le_mul_left hb).mpr h1
    have hab : b * (a / b) = a := mul_div_cancel₀ a hb.ne'
    nlinarith [hab]

/-- The JavaScript remainder is the identity on `[0, b)`. -/
theorem jsRem_of_lt {a b : ℚ} (ha : 0 ≤ a) (hb : 0 < b) (h : a < b) : jsRem a b = a := by
  unfold jsRem ratTrunc
  rw [if_pos (div_nonneg ha hb.le),
    Int.floor_eq_zero_iff.mpr ⟨div_nonneg ha hb.le, (div_lt_one hb).mpr h⟩]
  norm_num

/-- The JavaScript remainder is also the identity on `(-b, 0)`: the truncated
quotient is zero there, so no wrap-around happens at this step. -/
theorem jsRem_of_neg_gt {a b : ℚ} (ha : a < 0) (hb : 0 < b) (h : -b < a) : jsRem a b = a := by
  unfold jsRem ratTrunc
  rw [if_neg (not_le.mpr (div_neg_of_neg_of_pos ha hb))]
  have hm : a / b ∈ Set.Ioc (-1 : ℚ) 0 := by
    constructor
    · have h2 : (-b) / b < a / b := (div_lt_div_iff_of_pos_right hb).mpr h
      rwa [neg_div, div_self hb.ne'] at h2
    · exact div_nonpos_iff.mpr (Or.inr ⟨ha.le, hb.le⟩)
  rw [Int.ceil_eq_zero_iff.mpr hm]
  norm_num

/-- The modelled `duration` is always strictly positive (the `Math.max` with
`1e-9` guarantees it whatever is loaded). -/
theorem ChristmasTreeSimulator.duration_pos {P : Type} (s : ChristmasTreeSimulator P) :
    0 < s.duration :=
  lt_of_lt_of_le (by norm_num) (le_max_left _ _)

/-- The `currentTime` setter always stores a non-negative backing value. -/
theorem ChristmasTreeSimulator.setCurrentTime_stored_nonneg {P : Type}
    (s : ChristmasTreeSimulator P) (v : ℚ) :
    0 ≤ (s.setCurrentTime v)._currentTime := by
  unfold ChristmasTreeSimulator.setCurrentTime
  by_cases h : v < 0
  · simp only [if_pos h]
    have := (jsRem_neg_bounds h s.duration_pos).1
    linarith
  · simp only [if_neg h]
    exact not_lt.mp h

/-- Every modelled time mutation stores a non-negative backing value. -/
theorem applyPlaybackOp_stored_nonneg {P : Type} (s : ChristmasTreeSimulator P)
    (op : PlaybackOp) (h : 0 ≤ s._currentTime) :
    0 ≤ (applyPlaybackOp s op)._currentTime := by
  cases op with
  | writeTime v => exact s.setCurrentTime_stored_nonneg v
  | seek d => exact s.setCurrentTime_stored_nonneg _
  | advance d =>
    unfold applyPlaybackOp ChristmasTreeSimulator.processTimeAdvance
    by_cases hp : s.isPlaying
    · simp only [if_pos hp]
      exact s.setCurrentTime_stored_nonneg _
    · simp only [if_neg hp]
      exact h

/-- The non-negative backing value is an invariant of arbitrary sequences of
time mutations. -/
theorem runPlaybackOps_stored_nonneg {P : Type} (s : ChristmasTreeSimulator P)
    (ops : List PlaybackOp) (h : 0 ≤ s._currentTime) :
    0 ≤ (runPlaybackOps s ops)._currentTime := by
  induction ops generalizing s with
  | nil => exact h
  | cons op rest ih =>
    exact ih (applyPlaybackOp s op) (applyPlaybackOp_stored_nonneg s op h)

/-! ### Theorems about the playback controller -/

/-- A concrete simulator with four loaded frames at `baseFrameRate = 2`, so
`frameDuration = 0.5` and `duration = 2`. -/
def demoSimulator : ChristmasTreeSimulator ℕ :=
  { _currentTime := 0
    playbackRate := 1
    inititalPlaybackRate := 1
    baseFrameRate := 2
    isPlaying := false
    startPlaying := false
    dirty := true
    dirtyGeometry := true
    animationFrames := [[0], [0], [0], [0]]
    coordinateMapping := none }

/-- C2 counterexample: construct with the default `baseFrameRate = 60` and
call `resetPlayback({baseFrameRate: 30})`; a later `resetPlayback()` with all
options omitted keeps the live value 30 instead of restoring the
constructor's 60, because the source has no fallback assignment for an
omitted `baseFrameRate`. -/
theorem resetPlayback_keeps_live_baseFrameRate :
    (ChristmasTreeSimulator.construct ℕ).baseFrameRate = 60
    ∧ (((ChristmasTreeSimulator.construct ℕ).resetPlayback none none (some 30)
        0).resetPlayback none none none 0).baseFrameRate = 30 :=
  ⟨rfl, rfl⟩

/-- C2 (amended): `resetPlayback` with all options omitted sets `isPlaying`
back to the constructor's `startPlaying` and `playbackRate` back to the
constructor's initial playback rate (both are stored by the constructor and
never overwritten), leaves `baseFrameRate` unchanged at its previous live
value, and then writes the default `startTime` 0 through the normal
`currentTime` setter. -/
theorem resetPlayback_all_omitted {P : Type} (s : ChristmasTreeSimulator P) :
    s.resetPlayback none none none 0 =
      ChristmasTreeSimulator.setCurrentTime
        { s with isPlaying := s.startPlaying, playbackRate := s.inititalPlaybackRate } 0
    ∧ (s.resetPlayback none none none 0).isPlaying = s.startPlaying
    ∧ (s.resetPlayback none none none 0).playbackRate = s.inititalPlaybackRate
    ∧ (s.resetPlayback none none none 0).baseFrameRate = s.baseFrameRate :=
  ⟨rfl, rfl, rfl, rfl⟩

/-- C3: starting from any state with frames loaded and the non-negative
backing time every reachable state has, any finite sequence of time writes,
relative seeks and time advances leaves the `currentTime` getter's value in
`[0, duration)`; in particular, on four frames at `baseFrameRate = 2`
(duration 2), writing `-0.5` and reading back yields `1.5`. -/
theorem currentTime_always_in_range {P : Type} (s : ChristmasTreeSimulator P)
    (ops : List PlaybackOp) (hfc : 0 < s.frameCount) (ht : 0 ≤ s._currentTime) :
    (0 ≤ (runPlaybackOps s ops).currentTime
      ∧ (runPlaybackOps s ops).currentTime < (runPlaybackOps s ops).duration)
    ∧ (demoSimulator.setCurrentTime (-(1/2))).currentTime = 3/2 := by
  constructor
  · exact jsRem_nonneg_lt (runPlaybackOps_stored_nonneg s ops ht)
      (runPlaybackOps s ops).duration_pos
  · have hdur : demoSimulator.duration = 2 := by
      norm_num [ChristmasTreeSimulator.duration, ChristmasTreeSimulator.frameCount,
        ChristmasTreeSimulator.frameDuration, demoSimulator]
    have hsto : (demoSimulator.setCurrentTime (-(1/2)))._currentTime = 3/2 := by
      simp only [ChristmasTreeSimulator.setCurrentTime, hdur]
      rw [if_pos (by norm_num : (-(1/2) : ℚ) < 0),
        jsRem_of_neg_gt (by norm_num) (by norm_num) (by norm_num)]
      norm_num
    have hdur2 : (demoSimulator.setCurrentTime (-(1/2))).duration = 2 := hdur
    unfold ChristmasTreeSimulator.currentTime
    rw [hsto, hdur2, jsRem_of_lt (by norm_num) (by norm_num) (by norm_num)]

/-- Witness for `currentTime_always_in_range`: the concrete four-frame
simulator, with the single mutation "write `-0.5`". -/
theorem currentTime_always_in_range_w :
    (0 ≤ (runPlaybackOps demoSimulator [PlaybackOp.writeTime (-(1/2))]).currentTime
      ∧ (runPlaybackOps demoSimulator [PlaybackOp.writeTime (-(1/2))]).currentTime
        < (runPlaybackOps demoSimulator [PlaybackOp.writeTime (-(1/2))]).duration)
    ∧ (demoSimulator.setCurrentTime (-(1/2))).currentTime = 3/2 :=
  currentTime_always_in_range demoSimulator [PlaybackOp.writeTime (-(1/2))]
    (by norm_num [ChristmasTreeSimulator.frameCount, demoSimulator])
    (by norm_num [demoSimulator])

/-- The four-frame simulator read at `currentTime = 1.6` (stored `8/5`). -/
def demoSimulator16 : ChristmasTreeSimulator ℕ :=
  { demoSimulator with _currentTime := 8/5 }

/-- C5: with frames loaded, a positive base frame rate and the non-negative
stored time every reachable state has, `currentFrameIdx` equals
`⌊currentTime / frameDuration⌋ mod frameCount` with the mathematical
(non-negative) modulus; in particular at `currentTime = 1.6`,
`frameDuration = 0.5` and `frameCount = 4` it equals 3. -/
theorem currentFrameIdx_eq_floor_mod {P : Type} (s : ChristmasTreeSimulator P)
    (hfc : 0 < s.frameCount) (hb : 0 < s.baseFrameRate) (ht : 0 ≤ s._currentTime) :
    s.currentFrameIdx = ⌊s.currentTime / s.frameDuration⌋ % (s.frameCount : ℤ)
    ∧ demoSimulator16.currentFrameIdx = 3 := by
  constructor
  · unfold ChristmasTreeSimulator.currentFrameIdx
    apply Int.tmod_eq_emod
    · apply Int.floor_nonneg.mpr
      apply div_nonneg
      · exact (jsRem_nonneg_lt ht s.duration_pos).1
      · exact (div_pos one_pos hb).le
    · exact_mod_cast Nat.zero_le _
  · have hdur : demoSimulator16.duration = 2 := by
      norm_num [ChristmasTreeSimulator.duration, ChristmasTreeSimulator.frameCount,
        ChristmasTreeSimulator.frameDuration, demoSimulator16, demoSimulator]
    have hct : demoSimulator16.currentTime = 8/5 := by
      unfold ChristmasTreeSimulator.currentTime
      rw [show demoSimulator16._currentTime = 8/5 from rfl, hdur,
        jsRem_of_lt (by norm_num) (by norm_num) (by norm_num)]
    have hfd : demoSimulator16.frameDuration = 1/2 := by
      norm_num [ChristmasTreeSimulator.frameDuration, demoSimulator16, demoSimulator]
    unfold ChristmasTreeSimulator.currentFrameIdx
    rw [hct, hfd, show ((8:ℚ)/5) / (1/2) = 16/5 from by norm_num,
      show ⌊(16:ℚ)/5⌋ = 3 from by norm_num]
    decide

/-- Witness for `currentFrameIdx_eq_floor_mod`, at the concrete simulator
with `currentTime = 1.6`, `frameDuration = 0.5`, `frameCount = 4`. -/
theorem currentFrameIdx_eq_floor_mod_w :
    (demoSimulator16.currentFrameIdx =
      ⌊demoSimulator16.currentTime / demoSimulator16.frameDuration⌋
        % (demoSimulator16.frameCount : ℤ))
    ∧ demoSimulator16.currentFrameIdx = 3 :=
  currentFrameIdx_eq_floor_mod demoSimulator16 (by decide)
    (by norm_num [demoSimulator16, demoSimulator]) (by norm_num [demoSimulator16, demoSimulator])

/-- C7: every `setData` call writes 0 into the backing time through the
setter, which also raises `dirty`; passing a coordinate mapping additionally
raises `dirtyGeometry`; and a call passing only `animationFrames` replaces
exactly that reference, leaving `coordinateMapping` and `dirtyGeometry` (and
everything but the time and dirty flag) untouched. -/
theorem setData_resets_time_marks_dirty {P : Type} (s : ChristmasTreeSimulator P) :
    (∀ af cm, (s.setData af cm)._currentTime = 0 ∧ (s.setData af cm).dirty = true)
    ∧ (∀ af cm, (s.setData af (some cm)).dirtyGeometry = true)
    ∧ (∀ af, s.setData (some af) none =
        { s with animationFrames := af, _currentTime := 0, dirty := true }) := by
  refine ⟨fun af cm => ?_, fun af cm => ?_, fun af => ?_⟩
  · cases af <;> cases cm <;>
      simp [ChristmasTreeSimulator.setData, ChristmasTreeSimulator.setCurrentTime]
  · cases af <;>
      simp [ChristmasTreeSimulator.setData, ChristmasTreeSimulator.setCurrentTime]
  · simp [ChristmasTreeSimulator.setData, ChristmasTreeSimulator.setCurrentTime]

/-- The current frame index of any simulator whose stored time is 0 is 0
(whatever is loaded): `0 % duration = 0`, `⌊0 / frameDuration⌋ = 0`, and the
truncating remainder of 0 is 0. -/
theorem currentFrameIdx_of_zero_stored {P : Type} (s : ChristmasTreeSimulator P)
    (h : s._currentTime = 0) : s.currentFrameIdx = 0 := by
  unfold ChristmasTreeSimulator.currentFrameIdx ChristmasTreeSimulator.currentTime
  rw [h, jsRem_of_lt le_rfl s.duration_pos s.duration_pos, zero_div,
    Int.floor_zero, Int.zero_tmod]

/-- A simulator holding a single empty frame and no coordinate mapping. -/
def emptyFrameSimulator : ChristmasTreeSimulator ℕ :=
  { _currentTime := 0
    playbackRate := 1
    inititalPlaybackRate := 1
    baseFrameRate := 60
    isPlaying := false
    startPlaying := false
    dirty := true
    dirtyGeometry := true
    animationFrames := [[]]
    coordinateMapping := none }

/-- C10 counterexample: with one loaded frame that happens to be empty,
`frameCount = 1 > 0` and `coordinateMapping` is null, yet
`getCurrentFrameMapped()` succeeds and returns the empty list: `[].map` never
invokes its callback, so the null mapping is never dereferenced. -/
theorem getCurrentFrameMapped_empty_frame_succeeds :
    0 < emptyFrameSimulator.frameCount
    ∧ emptyFrameSimulator.coordinateMapping = none
    ∧ emptyFrameSimulator.getCurrentFrameMapped = some [] := by
  refine ⟨by decide, rfl, ?_⟩
  unfold ChristmasTreeSimulator.getCurrentFrameMapped
  rw [currentFrameIdx_of_zero_stored emptyFrameSimulator rfl]
  rfl

/-- C10 (amended): with a null `coordinateMapping`, `getCurrentFrameMapped`
fails whenever the frame read at `currentFrameIdx` exists and is non-empty;
`frameCount > 0` alone is not what forces the failure, since an empty current
frame returns `[]` without ever touching the mapping. -/
theorem getCurrentFrameMapped_null_mapping_fails {P : Type}
    (s : ChristmasTreeSimulator P) (f : List P)
    (hcm : s.coordinateMapping = none)
    (hf : jsGetElem s.animationFrames s.currentFrameIdx = some f)
    (hne : f ≠ []) :
    s.getCurrentFrameMapped = none := by
  unfold ChristmasTreeSimulator.getCurrentFrameMapped
  rw [hf]
  cases f with
  | nil => exact absurd rfl hne
  | cons a t =>
    simp only [hcm]
    rfl

/-- A simulator holding a single one-pixel frame and no coordinate mapping. -/
def soloPixelSimulator : ChristmasTreeSimulator ℕ :=
  { _currentTime := 0
    playbackRate := 1
    inititalPlaybackRate := 1
    baseFrameRate := 60
    isPlaying := false
    startPlaying := false
    dirty := true
    dirtyGeometry := true
    animationFrames := [[7]]
    coordinateMapping := none }

/-- Witness for `getCurrentFrameMapped_null_mapping_fails`: a one-pixel frame
with a null mapping makes the call fail. -/
theorem getCurrentFrameMapped_null_mapping_fails_w :
    soloPixelSimulator.getCurrentFrameMapped = none :=
  getCurrentFrameMapped_null_mapping_fails soloPixelSimulator [7] rfl
    (by rw [currentFrameIdx_of_zero_stored soloPixelSimulator rfl]; rfl)
    (by decide)
